import Mathlib

set_option maxRecDepth 4000

namespace BecaBot

/-!
Shallow embedding of the browser-side code of BecaBot_UTPL
(`myapp/static/js/chatbot.js` and `myapp/static/js/spa.js`).

Pure string processing (the markdown-subset renderer) is translated
function-by-function; the stateful widget code is translated as explicit
state passing, with network completions and timer firings supplied as
explicit inputs, since the JS event loop is single-threaded and each handler
runs to completion between suspension points.
-/

/-- Characters treated as whitespace by the model of JS `String.prototype.trim`
(the inputs of interest only use the ASCII set). -/
def wsChar (c : Char) : Bool := c = ' ' || c = '\t' || c = '\n' || c = '\r'

/-- Trim on char lists: drop whitespace from both ends. -/
def trimChars (cs : List Char) : List Char :=
  ((cs.dropWhile wsChar).reverse.dropWhile wsChar).reverse

/-- String-level trim, as used throughout chatbot.js (`line.trim()`). -/
def mdTrim (s : String) : String := String.mk (trimChars s.data)

/-- Split a char list at every occurrence of the separator, the model of
JS `text.split(sep)`: `"" → [""]`, separators delimit (possibly empty) fields. -/
def splitCharList (sep : Char) : List Char → List (List Char)
  | [] => [[]]
  | a :: rest =>
    match splitCharList sep rest with
    | [] => [[]]
    | l :: ls => if a = sep then [] :: l :: ls else (a :: l) :: ls

/-- `text.split('\n')` from markdownToHtml (chatbot.js line 86). -/
def linesOf (s : String) : List String := (splitCharList '\n' s.data).map String.mk

/-- Search for the lazy close of a bold span: the JS regex `/\*\*(.+?)\*\*/`
requires at least one inner character, its lazy dot does not cross newlines,
and the earliest possible closing `**` wins.  Given the characters after an
opening `**`, return the inner text and the remainder after the closing
stars, or `none` when this opening has no close. -/
def findCloseIn : List Char → Option (List Char × List Char)
  | [] => none
  | c :: rest =>
    if c = '\n' then none
    else
      match rest with
      | '*' :: '*' :: rest2 => some ([c], rest2)
      | _ => (findCloseIn rest).map (fun p => (c :: p.1, p.2))

/-- Left-to-right scan performing
`text.replace(/\*\*(.+?)\*\*/g, '<strong>$1</strong>')` (chatbot.js line 83):
at each `**` try to close the span; on success continue after the match, on
failure re-scan from the next character.  The fuel is the input length, which
bounds the recursion (every step consumes at least one character). -/
def boldScan : Nat → List Char → List Char
  | 0, cs => cs
  | _ + 1, [] => []
  | fuel + 1, '*' :: '*' :: rest =>
    match findCloseIn rest with
    | some (inner, rest2) =>
        "<strong>".data ++ inner ++ "</strong>".data ++ boldScan fuel rest2
    | none => '*' :: boldScan fuel ('*' :: rest)
  | fuel + 1, c :: rest => c :: boldScan fuel rest

/-- The bold-span replacement step of markdownToHtml. -/
def boldRepl (s : String) : String := String.mk (boldScan s.data.length s.data)

/-- The paragraph chunk emitted for a plain nonblank line (chatbot.js line 110). -/
def pWrap (t : String) : String := "<p style=\"margin: 5px 0;\">" ++ t ++ "</p>"

/-- The list-item chunk emitted for a bullet line (chatbot.js line 101). -/
def liWrap (t : String) : String := "<li style=\"margin: 5px 0;\">" ++ t ++ "</li>"

/-- The opening tag of a list block (chatbot.js line 96). -/
def ulOpen : String := "<ul style=\"margin: 10px 0; padding-left: 20px;\">"

/-- `line.startsWith('* ')` on an already-trimmed line (chatbot.js line 94). -/
def isBullet (t : String) : Bool :=
  match t.data with
  | '*' :: ' ' :: _ => true
  | _ => false

/-- `line.substring(2).trim()`: the text of one list item (chatbot.js line 100). -/
def mdItem (t : String) : String := mdTrim (String.mk (t.data.drop 2))

/-- The line loop of markdownToHtml (chatbot.js lines 90-118) as structural
recursion on the line list; the source appends exactly these chunks to `html`
left to right with `inList` as loop state, and closes a dangling list after
the loop (the `[]` case here matches lines 116-118). -/
def mdLines : List String → Bool → String
  | [], inList => if inList then "</ul>" else ""
  | l :: ls, inList =>
    let t := mdTrim l
    if isBullet t then
      (if inList then "" else ulOpen) ++ liWrap (mdItem t) ++ mdLines ls true
    else
      (if inList then "</ul>" else "") ++ (if t = "" then "" else pWrap t) ++
        mdLines ls false

/-- markdownToHtml (chatbot.js lines 79-121): the only falsy string is empty,
which short-circuits to `''`; otherwise bold spans are replaced and the line
loop runs starting outside any list. -/
def markdownToHtml (text : String) : String :=
  if text = "" then "" else mdLines (linesOf (boldRepl text)) false

/-- Block-level view of the renderer output: a paragraph or one list block. -/
inductive MdBlock where
  | para (t : String)
  | list (items : List String)
  deriving DecidableEq

/-- Concatenation of a list of strings (right fold with append). -/
def strConcat : List String → String := List.foldr (fun a b => a ++ b) ""

/-- Rendering of one block: exactly the chunks the source emits for it; a list
block always carries its closing tag. -/
def renderBlock : MdBlock → String
  | .para t => pWrap t
  | .list items => ulOpen ++ strConcat (items.map liWrap) ++ "</ul>"

def renderBlocks (bs : List MdBlock) : String := strConcat (bs.map renderBlock)

/-- Block structure of the renderer output: a maximal run of consecutive
bullet lines collects into one list block (`acc` holds the run seen so far,
reversed), a blank line emits nothing but ends any open run, and any other
line emits one trimmed paragraph. -/
def parseAux : List String → List String → Bool → List MdBlock
  | [], acc, inList => if inList then [.list acc.reverse] else []
  | l :: ls, acc, inList =>
    let t := mdTrim l
    if isBullet t then
      parseAux ls (if inList then mdItem t :: acc else [mdItem t]) true
    else
      let rest := parseAux ls [] false
      let tail := if t = "" then rest else .para t :: rest
      if inList then .list acc.reverse :: tail else tail

def parseBlocks (ls : List String) : List MdBlock := parseAux ls [] false

/-- Message author, the `sender` argument of addMessage (chatbot.js line 126). -/
inductive Sender where
  | user
  | bot
  deriving DecidableEq

/-- A DOM text-insertion channel: assigning `innerHTML` has the browser parse
the string as markup, assigning `textContent` displays it literally. -/
inductive DomWrite where
  | innerHTML (s : String)
  | textContent (s : String)
  deriving DecidableEq

/-- The content assignment of addMessage (chatbot.js lines 140-142): the
message div receives `markdownToHtml(text)` for the bot and the raw text for
the user, and in both cases through `content.innerHTML = htmlContent`. -/
def addMessageContentWrite (text : String) (sender : Sender) : DomWrite :=
  .innerHTML (if sender = .bot then markdownToHtml text else text)

/-- Platform model (not repository code): the visible text produced by an
innerHTML assignment, with `<...>` runs parsed as tags rather than shown. -/
def stripTagsAux : List Char → Bool → List Char
  | [], _ => []
  | c :: rest, true => if c = '>' then stripTagsAux rest false else stripTagsAux rest true
  | c :: rest, false => if c = '<' then stripTagsAux rest true else c :: stripTagsAux rest false

/-- The text a DOM write displays: literal for `textContent`, tag-interpreted
for `innerHTML`. -/
def renderedText : DomWrite → String
  | .innerHTML s => String.mk (stripTagsAux s.data false)
  | .textContent s => s

/-- What the dynamic-content container shows: the loading placeholder of
spa.js line 80, a loaded body (line 92), or the error panel of lines 117-121. -/
inductive ContainerView where
  | loading
  | content (body : String)
  | errorPanel
  deriving DecidableEq

/-- Outcome of a fetch: a response with a status and body text, or a
transport failure before any response. -/
inductive FetchResult where
  | ok (status : Nat) (body : String)
  | transportError
  deriving DecidableEq

/-- `res.ok`: status in the 2xx range. -/
def statusOk (status : Nat) : Bool := 200 ≤ status && status < 300

/-- The then/catch continuation of loadPartial's fetch (spa.js lines 87-123)
as it affects the container: a 2xx response replaces the container with the
body, a non-2xx status throws into the catch, and a transport error lands in
the catch, both of which install the error panel.  The callback never checks
whether a newer navigation has been issued since. -/
def applyFetchOutcome : FetchResult → ContainerView
  | .ok status body => if statusOk status then .content body else .errorPanel
  | .transportError => .errorPanel

/-- Observable outcome of one loadPartial call (spa.js lines 72-124) once its
fetch has settled. -/
structure LoadResult where
  container : ContainerView
  pushedUrl : Option String
  activeSet : Option String
  navEventUrl : Option String
  rebound : Bool
  loggedError : Bool
  resizeScheduled : Bool
  deriving DecidableEq

/-- loadPartial(url, push) (spa.js lines 72-124) given the predetermined
outcome of its fetch; the container is assumed present (line 75 would
otherwise return before fetching).  The success branch (lines 91-115) swaps
the body in, pushes history when asked, marks the active link, re-binds
links, emits the spa:navigate event and schedules the resize; the catch
branch (lines 116-123) installs the error panel and logs, and does none of
the rest. -/
def loadPartial (url : String) (push : Bool) (res : FetchResult) : LoadResult :=
  match res with
  | .ok status body =>
    if statusOk status then
      { container := .content body
        pushedUrl := if push then some url else none
        activeSet := some url
        navEventUrl := some url
        rebound := true
        loggedError := false
        resizeScheduled := true }
    else
      { container := .errorPanel, pushedUrl := none, activeSet := none,
        navEventUrl := none, rebound := false, loggedError := true,
        resizeScheduled := false }
  | .transportError =>
      { container := .errorPanel, pushedUrl := none, activeSet := none,
        navEventUrl := none, rebound := false, loggedError := true,
        resizeScheduled := false }

/-- A fetch outcome the code treats as failure: non-2xx status or transport
error. -/
def fetchFailsB : FetchResult → Bool
  | .ok status _ => !statusOk status
  | .transportError => true

/-- State of the dynamic-content container together with the navigation
requests issued so far, each carrying the predetermined outcome its fetch
will eventually deliver. -/
structure SpaNavState where
  container : ContainerView
  issued : List (String × FetchResult)
  deriving DecidableEq

/-- A navigation action: a new loadPartial call, or the arrival of the
response of an already-issued request (by issue order), which may happen in
any order relative to other requests. -/
inductive NavAct where
  | issue (url : String) (res : FetchResult)
  | complete (i : Nat)
  deriving DecidableEq

/-- An event-loop step of the partial loader: `issue` is a loadPartial call
(the container immediately shows the loading placeholder, spa.js line 80,
and the request goes in flight), `complete i` is the arrival of the i-th
issued request's response, whose continuation writes the container
unconditionally — spa.js has no request-sequence guard. -/
def navStep (s : SpaNavState) : NavAct → SpaNavState
  | .issue url res => { container := .loading, issued := s.issued ++ [(url, res)] }
  | .complete i =>
    match s.issued[i]? with
    | some (_, res) => { s with container := applyFetchOutcome res }
    | none => s

/-- Run a schedule of issues and completions from an empty initial state. -/
def runNav (acts : List NavAct) : SpaNavState :=
  acts.foldl navStep { container := .loading, issued := [] }

/-- The most recently issued navigation's url. -/
def lastIssuedUrl (s : SpaNavState) : Option String := s.issued.getLast?.map Prod.fst

/-- A sidebar `.nav-link` element: its href attribute (possibly absent) and
whether it carries the `active` class. -/
structure NavLink where
  href : Option String
  active : Bool
  deriving DecidableEq

/-- setActiveNav (spa.js lines 129-137): every sidebar nav link first loses
the active class, then regains it exactly when its href attribute strictly
equals the url (`linkHref === url`, no normalization; a missing attribute
never equals a string). -/
def setActiveNav (url : String) (links : List NavLink) : List NavLink :=
  links.map fun link =>
    let cleared := { link with active := false }
    if link.href = some url then { cleared with active := true } else cleared

/-- An `a[data-link]` element, abstracted to its number of attached click
listeners. -/
structure BoundLink where
  clickHandlers : Nat
  deriving DecidableEq

/-- `link.cloneNode(true)` (spa.js line 51): the clone keeps attributes and
children but none of the attached listeners. -/
def cloneNode (_link : BoundLink) : BoundLink := { clickHandlers := 0 }

/-- initNavigationLinks (spa.js lines 48-67): the first loop replaces every
data-link anchor by a listener-free clone, the second attaches exactly one
click listener to each. -/
def initNavigationLinks (links : List BoundLink) : List BoundLink :=
  (links.map cloneNode).map fun link => { link with clickHandlers := link.clickHandlers + 1 }

/-- Chat session state (chatbot.js lines 18, 408-410 and the box display):
`active` is `sessionActive`, `greeted` the greeting flag, `boxOpen` whether
the widget is displayed, `pending` whether an inactivity timeout is
scheduled. -/
structure ChatSt where
  active : Bool
  greeted : Bool
  boxOpen : Bool
  pending : Bool
  deriving DecidableEq

/-- resetInactivityTimer (chatbot.js lines 413-427): always clears any
pending timeout, then schedules a new one only when the session is active. -/
def resetInactivityTimer (s : ChatSt) : ChatSt :=
  let cleared := { s with pending := false }
  if cleared.active then { cleared with pending := true } else cleared

/-- The events that drive the chat session state: the user events monitored
by chatbot.js, the firing of the inactivity timer, and the resumption of the
timeout handler after its awaits. -/
inductive ChatUserEv where
  | keystroke
  | boxClick
  | sendClick (nonempty : Bool)
  | toggleBtn
  | closeX
  | timerFire
  | seqEnd
  deriving DecidableEq

/-- One event-loop step of the chat widget's handlers.  `keystroke` and
`boxClick` are the guarded resets of monitorUserActivity (chatbot.js lines
490-501); `sendClick` runs sendMessage, whose unconditional reset (line 202)
happens only when the trimmed input is nonempty (line 199), followed by the
guarded sendBtn reset (lines 504-508); `toggleBtn` is the chatBtn pair of
listeners run in registration order: the first (lines 51-70) reads the
pre-toggle display, toggles it and handles the greeting, while the second
(lines 514-527) re-reads `chatBox.style.display` only after that toggle, so
an opening click lands in its else branch and clears any pending timeout,
and a closing click lands in its `!isOpen` branch and calls
resetInactivityTimer (scheduling while the session is active) — the
execution is the opposite of that listener's comments; `closeX` is the
closeBtn listener (lines 72-74), which hides the box without touching the
timer; `timerFire` is the synchronous prefix of handleSessionTimeout (lines
430-439): the fired timeout is spent and `sessionActive` goes false;
`seqEnd` is its continuation after the awaits (lines 444-454). -/
def chatStep (s : ChatSt) : ChatUserEv → ChatSt
  | .keystroke => if s.active then resetInactivityTimer s else s
  | .boxClick => if s.active then resetInactivityTimer s else s
  | .sendClick nonempty =>
    let s1 := if nonempty then resetInactivityTimer s else s
    if s1.active then resetInactivityTimer s1 else s1
  | .toggleBtn =>
    if s.boxOpen then resetInactivityTimer { s with boxOpen := false }
    else { s with boxOpen := true, greeted := true, pending := false }
  | .closeX => { s with boxOpen := false }
  | .timerFire => if s.pending then { s with pending := false, active := false } else s
  | .seqEnd => if s.active then s else { s with active := true, greeted := false }

/-- The page-load state: session active, not greeted, box hidden, no timer. -/
def chatInit : ChatSt :=
  { active := true, greeted := false, boxOpen := false, pending := false }

/-- States the chat widget can actually be in: reachable from the page-load
state by event-loop steps. -/
inductive ChatReachable : ChatSt → Prop where
  | init : ChatReachable chatInit
  | step {s : ChatSt} (hr : ChatReachable s) (e : ChatUserEv) : ChatReachable (chatStep s e)

/-- Observable actions of the chat widget, for trace-level claims. -/
inductive ChatEv where
  | setSessionActive (b : Bool)
  | addMsg (text : String) (sender : Sender)
  | sleep (ms : Nat)
  | clearChatRequest
  | setGreeted (b : Bool)
  | showBox
  | hideBox
  deriving DecidableEq

/-- Chat state paired with the trace of observable actions so far. -/
structure ChatEff where
  st : ChatSt
  log : List ChatEv
  deriving DecidableEq

/-- The farewell message of handleSessionTimeout (chatbot.js lines 436-439). -/
def farewellText : String :=
  "👋 He notado que has estado inactivo. Por motivos de seguridad y eficiencia, voy a cerrar esta conversación. Si necesitas más ayuda, no dudes en escribirme de nuevo. ¡Que tengas un excelente día!"

/-- The greeting message of the chatBtn listener (chatbot.js lines 61-64). -/
def greetingText : String :=
  "👋 ¡Hola! Soy el Asistente Virtual de Becas UTPL. Estoy aquí para ayudarte con postulación, renovación, requisitos o cualquier consulta. ¿En qué puedo ayudarte hoy?"

/-- `sessionActive = b`. -/
def setSessionActiveOp (b : Bool) (m : ChatEff) : ChatEff :=
  { st := { m.st with active := b }, log := m.log ++ [.setSessionActive b] }

/-- addMessage(text, sender): appends one message to the transcript. -/
def addMessageOp (text : String) (sender : Sender) (m : ChatEff) : ChatEff :=
  { m with log := m.log ++ [.addMsg text sender] }

/-- `await new Promise(resolve => setTimeout(resolve, ms))`. -/
def awaitDelayOp (ms : Nat) (m : ChatEff) : ChatEff :=
  { m with log := m.log ++ [.sleep ms] }

/-- clearConversation (chatbot.js lines 458-485): issues the POST to
/clear-chat/ (the transcript pruning on success is a DOM detail outside
these claims). -/
def clearConversationOp (m : ChatEff) : ChatEff :=
  { m with log := m.log ++ [.clearChatRequest] }

/-- `greeted = b`. -/
def setGreetedOp (b : Bool) (m : ChatEff) : ChatEff :=
  { st := { m.st with greeted := b }, log := m.log ++ [.setGreeted b] }

/-- handleSessionTimeout (chatbot.js lines 430-455), as the sequence of its
observable steps in source order: `sessionActive = false`; the farewell bot
message; the fixed 2000ms delay; the clear-conversation request (its failure
is caught, the remainder runs either way); `sessionActive = true`;
`greeted = false`. -/
def handleSessionTimeout (m : ChatEff) : ChatEff :=
  setGreetedOp false (setSessionActiveOp true (clearConversationOp
    (awaitDelayOp 2000 (addMessageOp farewellText .bot (setSessionActiveOp false m)))))

/-- The two chatBtn click listeners (chatbot.js lines 51-70 and 514-527) run
in registration order.  The first reads the pre-toggle display: when the box
is open it hides it, otherwise it shows it, appends the (300ms-delayed)
greeting if not yet greeted and sets the greeted flag.  The second re-reads
`chatBox.style.display` after that toggle, so on an opening click it takes
its else branch and clears any pending timeout, and on a closing click it
calls resetInactivityTimer — the opposite of its comments. -/
def chatBtnClickEff (m : ChatEff) : ChatEff :=
  if m.st.boxOpen then
    { st := resetInactivityTimer { m.st with boxOpen := false }, log := m.log ++ [.hideBox] }
  else
    let m1 : ChatEff := { st := { m.st with boxOpen := true }, log := m.log ++ [.showBox] }
    let m2 : ChatEff :=
      if m1.st.greeted then m1
      else { st := { m1.st with greeted := true }, log := m1.log ++ [.addMsg greetingText .bot] }
    { m2 with st := { m2.st with pending := false } }

theorem strConcat_append (as bs : List String) :
    strConcat (as ++ bs) = strConcat as ++ strConcat bs := by
  induction as with
  | nil => simp [strConcat, String.empty_append]
  | cons a as ih => simp [strConcat, List.foldr] at ih ⊢
                    rw [ih, String.append_assoc]

theorem strConcat_cons (a : String) (as : List String) :
    strConcat (a :: as) = a ++ strConcat as := rfl

theorem strConcat_nil : strConcat [] = "" := rfl

theorem isBullet_empty : isBullet "" = false := rfl

/-- The line loop agrees with the block-level view: processing the remaining
lines outside a list renders exactly the parsed blocks, and processing them
inside a list whose earlier items are `acc.reverse` renders the open list
block continued by those lines. -/
theorem mdLines_blocks (ls : List String) :
    (∀ acc : List String, mdLines ls false = renderBlocks (parseAux ls acc false)) ∧
    (∀ acc : List String,
      ulOpen ++ (strConcat (acc.reverse.map liWrap) ++ mdLines ls true)
        = renderBlocks (parseAux ls acc true)) := by
  induction ls with
  | nil =>
    constructor <;> intro acc <;>
      simp [mdLines, parseAux, renderBlocks, renderBlock, strConcat_cons,
        strConcat, String.append_empty, String.append_assoc]
  | cons l ls ih =>
    constructor <;> intro acc
    · by_cases hb : isBullet (mdTrim l)
      · rw [show mdLines (l :: ls) false
              = ulOpen ++ liWrap (mdItem (mdTrim l)) ++ mdLines ls true by
            simp [mdLines, hb]]
        rw [show parseAux (l :: ls) acc false = parseAux ls [mdItem (mdTrim l)] true by
            simp [parseAux, hb]]
        rw [← ih.2 [mdItem (mdTrim l)]]
        simp [strConcat_cons, strConcat, String.append_empty, String.append_assoc]
      · by_cases he : mdTrim l = ""
        · rw [show mdLines (l :: ls) false = mdLines ls false by
              simp [mdLines, hb, he, isBullet_empty]]
          rw [show parseAux (l :: ls) acc false = parseAux ls [] false by
              simp [parseAux, hb, he, isBullet_empty]]
          exact ih.1 []
        · rw [show mdLines (l :: ls) false = pWrap (mdTrim l) ++ mdLines ls false by
              simp [mdLines, hb, he, String.empty_append]]
          rw [show parseAux (l :: ls) acc false
                = MdBlock.para (mdTrim l) :: parseAux ls [] false by
              simp [parseAux, hb, he]]
          rw [show renderBlocks (MdBlock.para (mdTrim l) :: parseAux ls [] false)
                = pWrap (mdTrim l) ++ renderBlocks (parseAux ls [] false) by
              simp [renderBlocks, renderBlock, strConcat_cons]]
          rw [ih.1 []]
    · by_cases hb : isBullet (mdTrim l)
      · rw [show mdLines (l :: ls) true = liWrap (mdItem (mdTrim l)) ++ mdLines ls true by
            simp [mdLines, hb, String.empty_append]]
        rw [show parseAux (l :: ls) acc true
              = parseAux ls (mdItem (mdTrim l) :: acc) true by
            simp [parseAux, hb]]
        rw [← ih.2 (mdItem (mdTrim l) :: acc), List.reverse_cons, List.map_append,
          strConcat_append]
        simp only [List.map_cons, List.map_nil, strConcat_cons, strConcat_nil,
          String.append_empty, String.append_assoc]
      · rw [show mdLines (l :: ls) true
              = "</ul>" ++ ((if mdTrim l = "" then "" else pWrap (mdTrim l)) ++ mdLines ls false) by
            simp [mdLines, hb, String.append_assoc]]
        rw [show parseAux (l :: ls) acc true
              = MdBlock.list acc.reverse ::
                  (if mdTrim l = "" then parseAux ls [] false
                   else MdBlock.para (mdTrim l) :: parseAux ls [] false) by
            by_cases he : mdTrim l = "" <;> simp [parseAux, hb, he, isBullet_empty]]
        rw [show renderBlocks (MdBlock.list acc.reverse ::
              (if mdTrim l = "" then parseAux ls [] false
               else MdBlock.para (mdTrim l) :: parseAux ls [] false))
              = (ulOpen ++ (strConcat (acc.reverse.map liWrap) ++ "</ul>")) ++
                ((if mdTrim l = "" then "" else pWrap (mdTrim l)) ++
                  renderBlocks (parseAux ls [] false)) by
            by_cases he : mdTrim l = "" <;>
              simp [renderBlocks, renderBlock, strConcat_cons, he,
                String.append_assoc, String.empty_append]]
        rw [ih.1 []]
        simp [String.append_assoc]

/-- markdownToHtml computes the rendering of the block structure of its
(bold-replaced) input lines. -/
theorem markdownToHtml_blocks (s : String) :
    markdownToHtml s = renderBlocks (parseBlocks (linesOf (boldRepl s))) := by
  by_cases h : s = ""
  · subst h; decide
  · rw [markdownToHtml, if_neg h, parseBlocks, (mdLines_blocks _).1 []]

example : markdownToHtml "x **b** y" =
    "<p style=\"margin: 5px 0;\">x <strong>b</strong> y</p>" := by decide

/-- Every line list rendered with no open list and no bullet lines yields one
trimmed paragraph per nonblank line. -/
theorem mdLines_no_bullets (ls : List String)
    (h : ∀ l ∈ ls, isBullet (mdTrim l) = false) :
    mdLines ls false
      = strConcat (ls.map fun l => if mdTrim l = "" then "" else pWrap (mdTrim l)) := by
  induction ls with
  | nil => rfl
  | cons l ls ih =>
    have hl := h l (List.mem_cons_self l ls)
    have hrest : ∀ x ∈ ls, isBullet (mdTrim x) = false :=
      fun x hx => h x (List.mem_cons_of_mem l hx)
    by_cases he : mdTrim l = "" <;>
      simp [mdLines, hl, he, isBullet_empty, strConcat_cons, ih hrest,
        String.empty_append]

/-- In any reachable chat state, an inactive session has no pending
inactivity timeout: only resetInactivityTimer schedules one, and it declines
to while `sessionActive` is false. -/
theorem chat_inactive_no_pending :
    ∀ s : ChatSt, ChatReachable s → s.active = false → s.pending = false := by
  intro s hr
  induction hr with
  | init => intro h; simp [chatInit] at h
  | @step s hr e ih =>
    intro h
    cases e with
    | keystroke =>
      by_cases ha : s.active <;> simp_all [chatStep, resetInactivityTimer]
    | boxClick =>
      by_cases ha : s.active <;> simp_all [chatStep, resetInactivityTimer]
    | sendClick ne =>
      by_cases ha : s.active <;> cases ne <;> simp_all [chatStep, resetInactivityTimer]
    | toggleBtn =>
      by_cases ho : s.boxOpen <;> by_cases ha : s.active <;>
        simp_all [chatStep, resetInactivityTimer]
    | closeX => simp_all [chatStep]
    | timerFire => by_cases hp : s.pending <;> simp_all [chatStep]
    | seqEnd => by_cases ha : s.active <;> simp_all [chatStep]

/-- Every link output by initNavigationLinks carries exactly one click
listener: the clone discards whatever was attached, the second loop adds
one. -/
theorem initNavigationLinks_handlers (links : List BoundLink) (l : BoundLink)
    (h : l ∈ initNavigationLinks links) : l.clickHandlers = 1 := by
  rcases List.mem_map.mp h with ⟨b, hb, rfl⟩
  rcases List.mem_map.mp hb with ⟨a, _, rfl⟩
  rfl

/-- C1: the claim states that a stale response from an earlier, still
in-flight navigation fetch never overwrites a container already showing a
later navigation's result.  The source has no request-sequence guard: in the
schedule below, /panel-b/ is issued after /panel-a/ and its response renders
BODY-B, then /panel-a/'s late response arrives and the container ends up
showing BODY-A — the stale response wins, violating the claim. -/
theorem c1_stale_response_overwrites :
    lastIssuedUrl (runNav [.issue "/panel-a/" (.ok 200 "BODY-A"),
        .issue "/panel-b/" (.ok 200 "BODY-B"), .complete 1]) = some "/panel-b/"
    ∧ (runNav [.issue "/panel-a/" (.ok 200 "BODY-A"),
        .issue "/panel-b/" (.ok 200 "BODY-B"), .complete 1]).container
      = .content "BODY-B"
    ∧ (runNav [.issue "/panel-a/" (.ok 200 "BODY-A"),
        .issue "/panel-b/" (.ok 200 "BODY-B"), .complete 1, .complete 0]).container
      = .content "BODY-A" :=
  ⟨rfl, rfl, rfl⟩

/-- C2 counterexample: the claim says user-authored text is inserted
literally, not interpreted as markup.  addMessage assigns the raw user text
to `content.innerHTML`, so the browser parses it: the user input
`<b>hola</b>` displays as `hola` with injected bold markup, not as the
literal string. -/
theorem c2_user_markup_is_interpreted :
    addMessageContentWrite "<b>hola</b>" Sender.user = DomWrite.innerHTML "<b>hola</b>"
    ∧ renderedText (addMessageContentWrite "<b>hola</b>" Sender.user) ≠ "<b>hola</b>"
    ∧ renderedText (addMessageContentWrite "<b>hola</b>" Sender.user) = "hola" :=
  ⟨rfl, by decide, by decide⟩

/-- C2 amended: addMessage passes the text through the markdown renderer
exactly when the sender is the bot and leaves user text unmodified, but both
are assigned via the markup-interpreting innerHTML channel, so user text is
not inserted literally and a user can inject markup. -/
theorem c2_renderer_only_for_bot :
    (∀ text, addMessageContentWrite text Sender.bot
      = DomWrite.innerHTML (markdownToHtml text))
    ∧ (∀ text, addMessageContentWrite text Sender.user = DomWrite.innerHTML text) :=
  ⟨fun _ => rfl, fun _ => rfl⟩

/-- C3 counterexample: on the input `a\nb` — which contains no `**` span and
no `* `-prefixed line — the output is two paragraphs, not the input wrapped
in one paragraph; and the renderer is not idempotent: rendering its own
output for `linea` wraps it in a further paragraph. -/
theorem c3_not_single_paragraph :
    boldRepl "a\nb" = "a\nb"
    ∧ isBullet (mdTrim "a") = false
    ∧ isBullet (mdTrim "b") = false
    ∧ markdownToHtml "a\nb" ≠ pWrap "a\nb"
    ∧ markdownToHtml "a\nb" = pWrap "a" ++ pWrap "b"
    ∧ boldRepl "linea" = "linea"
    ∧ markdownToHtml (markdownToHtml "linea") ≠ markdownToHtml "linea" :=
  ⟨by decide, rfl, rfl, by decide, by decide, by decide, by decide⟩

/-- C3 amended: for every input with no `**` span (the bold replacement
leaves it unchanged) and no line whose trimmed form starts with `* `, the
output is one paragraph per nonblank line, each holding the trimmed line —
a single-line input is wrapped in exactly one paragraph, a multi-line input
in one paragraph per line, and blank lines vanish. -/
theorem c3_per_line_paragraphs (s : String)
    (hb : boldRepl s = s)
    (h : ∀ l ∈ linesOf s, isBullet (mdTrim l) = false) :
    markdownToHtml s
      = strConcat ((linesOf s).map fun l => if mdTrim l = "" then "" else pWrap (mdTrim l)) := by
  by_cases hs : s = ""
  · subst hs; decide
  · rw [markdownToHtml, if_neg hs, hb, mdLines_no_bullets (linesOf s) h]

/-- Witness for C3 amended: a concrete bold-free, bullet-free input. -/
theorem c3_per_line_paragraphs_witness :
    markdownToHtml "hola mundo" = "<p style=\"margin: 5px 0;\">hola mundo</p>" :=
  (c3_per_line_paragraphs "hola mundo" (by decide) (by decide)).trans (by decide)

/-- C4: on `a\n* b\n* c\nd` the renderer emits one paragraph `a`, one list
block with exactly the items `b` and `c`, and one paragraph `d`; in general
the output is the rendering of the block structure of the input lines, in
which consecutive bullet lines form a single list block and every list block
carries its closing tag, so a list open at end of input is closed — as on
the input `a\n* b`. -/
theorem c4_list_grouping :
    markdownToHtml "a\n* b\n* c\nd"
      = "<p style=\"margin: 5px 0;\">a</p><ul style=\"margin: 10px 0; padding-left: 20px;\"><li style=\"margin: 5px 0;\">b</li><li style=\"margin: 5px 0;\">c</li></ul><p style=\"margin: 5px 0;\">d</p>"
    ∧ parseBlocks (linesOf (boldRepl "a\n* b\n* c\nd"))
      = [.para "a", .list ["b", "c"], .para "d"]
    ∧ (∀ s, markdownToHtml s = renderBlocks (parseBlocks (linesOf (boldRepl s))))
    ∧ markdownToHtml "a\n* b"
      = "<p style=\"margin: 5px 0;\">a</p><ul style=\"margin: 10px 0; padding-left: 20px;\"><li style=\"margin: 5px 0;\">b</li></ul>" :=
  ⟨by decide, by decide, markdownToHtml_blocks, by decide⟩

/-- C5: whenever loadPartial's fetch fails — non-2xx status or transport
error — the container is replaced by the error panel, the error is logged,
no history entry is pushed even when push was requested, and no spa:navigate
event is emitted. -/
theorem c5_error_path (url : String) (push : Bool) (res : FetchResult)
    (h : fetchFailsB res = true) :
    (loadPartial url push res).container = .errorPanel
    ∧ (loadPartial url push res).pushedUrl = none
    ∧ (loadPartial url push res).navEventUrl = none
    ∧ (loadPartial url push res).loggedError = true := by
  cases res with
  | ok status body =>
    simp only [fetchFailsB, Bool.not_eq_true'] at h
    simp [loadPartial, h]
  | transportError => simp [loadPartial]

/-- Witness for C5: a 404 response with push requested. -/
theorem c5_error_path_witness :
    fetchFailsB (.ok 404 "Not Found") = true
    ∧ ((loadPartial "/becas/" true (.ok 404 "Not Found")).container = .errorPanel
      ∧ (loadPartial "/becas/" true (.ok 404 "Not Found")).pushedUrl = none
      ∧ (loadPartial "/becas/" true (.ok 404 "Not Found")).navEventUrl = none
      ∧ (loadPartial "/becas/" true (.ok 404 "Not Found")).loggedError = true) :=
  ⟨by decide, c5_error_path "/becas/" true (.ok 404 "Not Found") (by decide)⟩

/-- C6: handleSessionTimeout performs, in source order: `sessionActive =
false`, the farewell bot message, the fixed 2000ms wait, the
clear-conversation request, and finally `sessionActive = true` and `greeted
= false`; with the greeting flag cleared, the next opening click appends a
fresh greeting. -/
theorem c6_timeout_sequence (m : ChatEff) :
    (handleSessionTimeout m).log
      = m.log ++ [.setSessionActive false, .addMsg farewellText .bot, .sleep 2000,
          .clearChatRequest, .setSessionActive true, .setGreeted false]
    ∧ (handleSessionTimeout m).st.active = true
    ∧ (handleSessionTimeout m).st.greeted = false
    ∧ ChatEv.addMsg greetingText Sender.bot
        ∈ (chatBtnClickEff
            (ChatEff.mk { (handleSessionTimeout m).st with boxOpen := false } [])).log := by
  refine ⟨?_, rfl, rfl, ?_⟩
  · simp [handleSessionTimeout, setGreetedOp, setSessionActiveOp, clearConversationOp,
      awaitDelayOp, addMessageOp]
  · simp [handleSessionTimeout, chatBtnClickEff, setGreetedOp, setSessionActiveOp,
      clearConversationOp, awaitDelayOp, addMessageOp, resetInactivityTimer]

/-- C7: after setActiveNav(url) the active class sits on a sidebar link
exactly when its href attribute equals the url under strict string equality,
and the success path of loadPartial invokes it with the just-loaded url. -/
theorem c7_active_link (url : String) (links : List NavLink) (l : NavLink)
    (h : l ∈ setActiveNav url links) :
    (l.active = true ↔ l.href = some url)
    ∧ ∀ push status body, statusOk status = true →
        (loadPartial url push (.ok status body)).activeSet = some url := by
  constructor
  · rcases List.mem_map.mp h with ⟨a, _, rfl⟩
    by_cases ha : a.href = some url <;> simp [ha]
  · intro push status body hs
    simp [loadPartial, hs]

/-- Witness for C7: two sidebar links, one matching href. -/
theorem c7_active_link_witness :
    ((NavLink.mk (some "/a/") true).active = true
      ↔ (NavLink.mk (some "/a/") true).href = some "/a/")
    ∧ (loadPartial "/a/" true (.ok 200 "B")).activeSet = some "/a/" :=
  ⟨(c7_active_link "/a/" [⟨some "/a/", false⟩, ⟨some "/b/", true⟩]
      ⟨some "/a/", true⟩ (by decide)).1,
   (c7_active_link "/a/" [⟨some "/a/", false⟩, ⟨some "/b/", true⟩]
      ⟨some "/a/", true⟩ (by decide)).2 true 200 "B" (by decide)⟩

/-- C8: after the initial binding plus any number n of re-bindings, every
data-link anchor carries exactly one click listener — cloning discards the
old listeners before one new listener is attached — and re-binding is
idempotent. -/
theorem c8_rebind_single_handler (n : Nat) (links : List BoundLink) (l : BoundLink)
    (h : l ∈ Nat.iterate initNavigationLinks n (initNavigationLinks links)) :
    l.clickHandlers = 1
    ∧ initNavigationLinks (initNavigationLinks links) = initNavigationLinks links := by
  constructor
  · induction n generalizing links with
    | zero => exact initNavigationLinks_handlers links l h
    | succ k ih =>
      rw [Function.iterate_succ_apply] at h
      exact ih (initNavigationLinks links) h
  · simp [initNavigationLinks, cloneNode, List.map_map, Function.comp]

/-- Witness for C8: two swaps after the initial bind, links starting with
arbitrary listener counts. -/
theorem c8_rebind_single_handler_witness :
    (BoundLink.mk 1) ∈ Nat.iterate initNavigationLinks 2 (initNavigationLinks [⟨7⟩, ⟨0⟩])
    ∧ (BoundLink.mk 1).clickHandlers = 1 :=
  ⟨by decide, (c8_rebind_single_handler 2 [⟨7⟩, ⟨0⟩] ⟨1⟩ (by decide)).1⟩

/-- C9: in any reachable state in which the timeout-clear sequence is in
progress (`sessionActive` false), no inactivity timeout is pending; every
timer-reset event (keystroke, click in the box, send, open) leaves none
pending — it cancels but never schedules while the session is inactive — so
the timer cannot fire again during the farewell-and-clear sequence; and the
state right after the sequence completes has no pending timeout either. -/
theorem c9_no_timer_during_clear (s : ChatSt) (hr : ChatReachable s)
    (h : s.active = false) :
    s.pending = false
    ∧ (chatStep s .keystroke).pending = false
    ∧ (chatStep s .boxClick).pending = false
    ∧ (chatStep s (.sendClick true)).pending = false
    ∧ (chatStep s (.sendClick false)).pending = false
    ∧ (chatStep s .toggleBtn).pending = false
    ∧ chatStep s .timerFire = s
    ∧ (chatStep s .seqEnd).pending = false := by
  have hp := chat_inactive_no_pending s hr h
  refine ⟨hp, ?_, ?_, ?_, ?_, ?_, ?_, ?_⟩ <;>
    by_cases hbo : s.boxOpen <;>
      simp [chatStep, resetInactivityTimer, h, hp, hbo]

/-- Witness for C9: the reachable state reached by opening the chat,
clicking inside the box (which schedules the inactivity timer) and letting
that timer fire. -/
theorem c9_no_timer_during_clear_witness :
    (chatStep (chatStep (chatStep chatInit .toggleBtn) .boxClick) .timerFire).active = false
    ∧ ((chatStep (chatStep (chatStep chatInit .toggleBtn) .boxClick) .timerFire).pending = false
      ∧ (chatStep (chatStep (chatStep (chatStep chatInit .toggleBtn) .boxClick) .timerFire) .keystroke).pending = false
      ∧ (chatStep (chatStep (chatStep (chatStep chatInit .toggleBtn) .boxClick) .timerFire) .boxClick).pending = false
      ∧ (chatStep (chatStep (chatStep (chatStep chatInit .toggleBtn) .boxClick) .timerFire) (.sendClick true)).pending = false
      ∧ (chatStep (chatStep (chatStep (chatStep chatInit .toggleBtn) .boxClick) .timerFire) (.sendClick false)).pending = false
      ∧ (chatStep (chatStep (chatStep (chatStep chatInit .toggleBtn) .boxClick) .timerFire) .toggleBtn).pending = false
      ∧ chatStep (chatStep (chatStep (chatStep chatInit .toggleBtn) .boxClick) .timerFire) .timerFire
          = chatStep (chatStep (chatStep chatInit .toggleBtn) .boxClick) .timerFire
      ∧ (chatStep (chatStep (chatStep (chatStep chatInit .toggleBtn) .boxClick) .timerFire) .seqEnd).pending = false) :=
  ⟨by decide,
   c9_no_timer_during_clear (chatStep (chatStep (chatStep chatInit .toggleBtn) .boxClick) .timerFire)
     (ChatReachable.step (ChatReachable.step (ChatReachable.step ChatReachable.init .toggleBtn) .boxClick) .timerFire)
     (by decide)⟩

/-- C10: markdownToHtml returns the empty string on empty input; a blank or
whitespace-only line contributes no output chunk and no block — it only
closes a list block when one is open; and a nonblank non-bullet line is
trimmed before being wrapped as a paragraph. -/
theorem c10_blank_and_trim :
    markdownToHtml "" = ""
    ∧ (∀ l ls b, mdTrim l = "" →
        mdLines (l :: ls) b = (if b then "</ul>" else "") ++ mdLines ls false)
    ∧ (∀ l ls, mdTrim l = "" → parseBlocks (l :: ls) = parseBlocks ls)
    ∧ (∀ l ls, mdTrim l ≠ "" → isBullet (mdTrim l) = false →
        mdLines (l :: ls) false = pWrap (mdTrim l) ++ mdLines ls false) := by
  refine ⟨rfl, ?_, ?_, ?_⟩
  · intro l ls b he
    cases b <;>
      simp [mdLines, he, isBullet_empty, String.empty_append, String.append_empty]
  · intro l ls he
    simp [parseBlocks, parseAux, he, isBullet_empty]
  · intro l ls he hb
    simp [mdLines, he, hb, String.empty_append]

/-- Witness for C10: a whitespace-only line inside and outside a list, and a
padded plain line. -/
theorem c10_blank_and_trim_witness :
    mdLines ["   ", "x"] true = "</ul>" ++ mdLines ["x"] false
    ∧ parseBlocks ["", "* a"] = parseBlocks ["* a"]
    ∧ mdLines ["  hola  ", ""] false = pWrap (mdTrim "  hola  ") ++ mdLines [""] false :=
  ⟨c10_blank_and_trim.2.1 "   " ["x"] true (by decide),
   c10_blank_and_trim.2.2.1 "" ["* a"] (by decide),
   c10_blank_and_trim.2.2.2 "  hola  " [""] (by decide) (by decide)⟩

end BecaBot
